import Mathlib

/-!
Shallow embedding of `MatTimeSeriesImporter`
(`framework_tvb/tvb/adapters/uploaders/mat_timeseries_importer.py`).

Numeric array entries are modelled as rationals, 2D arrays as lists of row
lists, and the persisted HDF5 container as a record of the values the code
stores into it.  Exceptions are modelled by the `PyErr` type and fallible
steps return `Except PyErr _`; a `launch` that returns `.error` has produced
no index record and no storage container (the transactional decorator makes
failed runs leave no artifact).
-/

/-- Exception kinds observable at the boundary of `launch`:
`launchException` models `LaunchException`, `indexError` a Python
`IndexError`, `keyError` a dict-lookup failure, `attributeError` a duck-typing
failure.  `ParseException` from the reader is modelled by the `Except String`
result of the reader input (see `launch`). -/
inductive PyErr where
  | launchException (msg : String)
  | indexError (msg : String)
  | keyError (msg : String)
  | attributeError (msg : String)
  deriving Repr, DecidableEq

/-- Python index normalisation: a negative index counts from the end. -/
def pyNorm (n : Nat) (i : Int) : Int :=
  if i < 0 then i + n else i

/-- Python clamping of a (normalised) slice bound into `[0, n]`. -/
def pyClamp (n : Nat) (i : Int) : Nat :=
  (min (max i 0) (n : Int)).toNat

/-- Python `xs[i]` on a sequence: negative indices count from the end,
out-of-range indices raise `IndexError`. -/
def pyGetIdx {α : Type} (xs : List α) (i : Int) : Except PyErr α :=
  if pyNorm xs.length i < 0 then .error (.indexError "index out of range")
  else
    match xs.get? (pyNorm xs.length i).toNat with
    | some x => .ok x
    | none => .error (.indexError "index out of range")

/-- Python `xs[a:b]` on a sequence (step 1): bounds are normalised and
clamped, never raising. -/
def pyRange {α : Type} (xs : List α) (start stop : Option Int) : List α :=
  let n := xs.length
  let a := pyClamp n (pyNorm n (start.getD 0))
  let b := pyClamp n (pyNorm n (stop.getD (n : Int)))
  (xs.drop a).take (b - a)

/-- Modelled from the spec: `parse_slice`
(`tvb.core.adapters.arguments_serialisation`, not among the given sources)
turns a numpy-style slice string into a structured multi-axis index of single
indices and `start:stop` ranges; this is its parsed form (one item per axis).
The optional step and ellipsis of the full grammar are not exercised by any
property below. -/
inductive SliceItem where
  | idx (i : Int)
  | interval (start stop : Option Int)
  deriving Repr, DecidableEq

/-- The result of numpy basic indexing on a 2D array: each integer index
removes one axis, so the result is 2D, 1D or 0D.  A 2D result carries its
column count explicitly, because a numpy array tracks its full shape even
when the selected row range is empty (slicing a `(4, 3)` array with `0:0,:`
yields shape `(0, 3)`). -/
inductive SliceResult where
  | d2 (a : List (List ℚ)) (cols : Nat)
  | d1 (v : List ℚ)
  | d0 (x : ℚ)
  deriving Repr, DecidableEq

/-- Error-propagating map, as numpy element-wise column extraction behaves. -/
def mapMExcept {α β : Type} (f : α → Except PyErr β) : List α → Except PyErr (List β)
  | [] => .ok []
  | x :: xs =>
    match f x with
    | .error e => .error e
    | .ok y =>
      match mapMExcept f xs with
      | .error e => .error e
      | .ok ys => .ok (y :: ys)

/-- Numpy basic indexing `data[s0, s1]` on a 2D array. -/
def applySlicePair (data : List (List ℚ)) : SliceItem → SliceItem → Except PyErr SliceResult
  | .idx i, .idx j =>
    match pyGetIdx data i with
    | .error e => .error e
    | .ok row =>
      match pyGetIdx row j with
      | .error e => .error e
      | .ok x => .ok (.d0 x)
  | .idx i, .interval a b =>
    match pyGetIdx data i with
    | .error e => .error e
    | .ok row => .ok (.d1 (pyRange row a b))
  | .interval a b, .idx j =>
    match mapMExcept (fun r => pyGetIdx r j) (pyRange data a b) with
    | .error e => .error e
    | .ok col => .ok (.d1 col)
  | .interval a b, .interval c d =>
    .ok (.d2 ((pyRange data a b).map (fun r => pyRange r c d))
          (pyRange (data.headD []) c d).length)

/-- Numpy basic indexing of a 2D array by a parsed multi-axis slice:
a single item indexes axis 0, a pair indexes both axes, more items than
axes is an `IndexError`. -/
def applySliceList (data : List (List ℚ)) : List SliceItem → Except PyErr SliceResult
  | [] => .ok (.d2 data (data.headD []).length)
  | [s] => applySlicePair data s (.interval none none)
  | [s0, s1] => applySlicePair data s0 s1
  | _ => .error (.indexError "too many indices for array")

/-- Numpy `.T` of a 2D array (rows become columns). -/
def transposeM (m : List (List ℚ)) : List (List ℚ) :=
  (List.range (m.headD []).length).map (fun j => m.map (fun r => r.getD j 0))

/-- Lines 182-185 of the importer: `if transpose: data = data.T` followed by
`if slice: data = data[parse_slice(slice)]` (the slice is given here already
parsed; `none` models the empty/absent slice string, which is falsy). -/
def transformStage (data : List (List ℚ)) (transpose : Bool)
    (slice : Option (List SliceItem)) : Except PyErr SliceResult :=
  let d := if transpose then transposeM data else data
  match slice with
  | none => .ok (.d2 d (d.headD []).length)
  | some s => applySliceList d s

/-- `numpy.ndarray.shape` of a slicing result; the column count of a 2D
result is the one recorded when the slice was applied to the rectangular
input, which numpy preserves even when the row range is empty. -/
def SliceResult.shape : SliceResult → List Nat
  | .d2 a cols => [a.length, cols]
  | .d1 v => [v.length]
  | .d0 _ => []

/-- The connectivity topology as the importer reads it: a region count and a
unique identifier. -/
structure Connectivity where
  number_of_regions : Nat
  gid : String
  deriving Repr, DecidableEq

/-- The sensor-array topology as the importer reads it. -/
structure Sensors where
  number_of_sensors : Nat
  gid : String
  deriving Repr, DecidableEq

/-- The `tstype_parameters` argument of `launch`: either a connectivity or a
sensor array. -/
inductive Topology where
  | connectivity (c : Connectivity)
  | sensors (s : Sensors)
  deriving Repr, DecidableEq

/-- Modelled from the spec: the construction-time defaults of a fresh
time-series trait object (`TimeSeriesRegion()` / `TimeSeriesEEG()`, whose
class lives outside the given sources).  Per the spec the record holds a
sample period, a period unit, a start time, a title, a fixed axis-name
ordering and an initially empty axis-label mapping; their default values are
whatever the external class declares, so they are parameters of the model. -/
structure TSDefaults where
  sample_period : ℚ
  sample_period_unit : String
  start_time : ℚ
  title : String
  labels_ordering : List String
  labels_dimensions : List (String × List String)
  deriving Repr, DecidableEq

/-- The in-memory time-series trait object `ts` used by `launch`
(`type_name` models `type(ts).__name__`). -/
structure TSObject where
  type_name : String
  sample_period : ℚ
  sample_period_unit : String
  start_time : ℚ
  title : String
  labels_ordering : List String
  labels_dimensions : List (String × List String)
  deriving Repr, DecidableEq

/-- Modelled from the spec: the `sample_rate` attribute of the time-series
object (defined outside the given sources); the index and container mirror
it.  It is read after `launch` has set the period unit to seconds, where it
is the reciprocal of the sample period. -/
def TSObject.sample_rate (ts : TSObject) : ℚ := 1 / ts.sample_period

/-- The variant-specific head of an index record: `TimeSeriesRegionIndex`
carries `connectivity_gid` and `has_surface_mapping`, `TimeSeriesEEGIndex`
carries `sensors_gid`. -/
inductive VariantRef where
  | region (connectivity_gid : String) (has_surface_mapping : Bool)
  | eeg (sensors_gid : String)
  deriving Repr, DecidableEq

/-- The index record returned by `launch` (both index classes modelled as one
record with a variant-specific head). -/
structure TSIndex where
  gid : String
  variant : VariantRef
  title : String
  time_series_type : String
  sample_period_unit : String
  sample_period : ℚ
  sample_rate : ℚ
  labels_dimensions : String
  labels_ordering : String
  data_ndim : Nat
  data_length_1d : Nat
  data_length_2d : Nat
  data_length_3d : Nat
  data_length_4d : Nat
  deriving Repr, DecidableEq

/-- The topology reference stored inside the H5 container. -/
inductive H5Ref where
  | connectivity (gid : String)
  | sensors (gid : String)
  deriving Repr, DecidableEq

/-- The persisted storage container, as a record of everything the importer
stores into it. -/
structure TSH5 where
  ref : H5Ref
  gid : String
  time : List ℚ
  data : List (List (List (List ℚ)))
  nr_dimensions : Nat
  sample_period : ℚ
  sample_period_unit : String
  sample_rate : ℚ
  start_time : ℚ
  labels_ordering : List String
  labels_dimensions : List (String × List String)
  title : String
  deriving Repr, DecidableEq

/-- Line 195: `data[:, numpy.newaxis, :, numpy.newaxis]` — insert a singleton
state-variable axis after time and append a singleton mode axis. -/
def canonical4 (a : List (List ℚ)) : List (List (List (List ℚ))) :=
  a.map (fun row => [row.map (fun x => [x])])

/-- Modelled from the spec: `ts_h5.read_data_shape()` re-reads the persisted
shape of the persisted 4D array from storage (storage internals are outside the given
sources); for the nested-list model this is the length of each nesting level
along the first entries (the stored arrays are rectangular). -/
def shape4 (d : List (List (List (List ℚ)))) : List Nat :=
  [d.length, (d.headD []).length, ((d.headD []).headD []).length,
    (((d.headD []).headD []).headD []).length]

/-- Modelled from the spec: `prepare_array_shape_meta`
(`tvb.core.neotraits.db`, not among the given sources) produces the four-slot
shape descriptor, padding missing trailing dimensions with zero. -/
def prepare_array_shape_meta (shape : List Nat) : Nat × Nat × Nat × Nat :=
  (shape.getD 0 0, shape.getD 1 0, shape.getD 2 0, shape.getD 3 0)

/-- `json.dumps` of a plain string (labels here contain no escapes). -/
def jsonString (s : String) : String := "\"" ++ s ++ "\""

/-- `json.dumps` of a list of strings. -/
def jsonStringList (xs : List String) : String :=
  "[" ++ String.intercalate ", " (xs.map jsonString) ++ "]"

/-- `json.dumps` of the labels dictionary. -/
def jsonLabelsDict (kvs : List (String × List String)) : String :=
  "\x7b" ++
    String.intercalate ", "
      (kvs.map (fun kv => jsonString kv.1 ++ ": " ++ jsonStringList kv.2)) ++
    "\x7d"

/-- Line 52. -/
def TS_REGION : String := "Region"

/-- Line 53. -/
def TS_EEG : String := "EEG"

/-- Lines 147-148: the channel-mismatch message of `create_region_ts`. -/
def region_mismatch_msg (observed expected : Nat) : String :=
  "Data has " ++ toString observed ++ " channels but the connectivity has " ++
    toString expected ++ " nodes"

/-- Lines 161-162: the channel-mismatch message of `create_eeg_ts`. -/
def eeg_mismatch_msg (observed expected : Nat) : String :=
  "Data has " ++ toString observed ++ " channels but the sensors have " ++
    toString expected

/-- A freshly constructed index record before `launch` fills its metadata
(`gid` models the auto-generated identifier, `variant` the fields the builder
sets; the remaining columns are unset). -/
def blankIndex (freshGid : String) (variant : VariantRef) : TSIndex :=
  { gid := freshGid, variant := variant, title := "", time_series_type := "",
    sample_period_unit := "", sample_period := 0, sample_rate := 0,
    labels_dimensions := "", labels_ordering := "", data_ndim := 0,
    data_length_1d := 0, data_length_2d := 0, data_length_3d := 0,
    data_length_4d := 0 }

/-- A freshly opened storage container holding only the topology reference
the builder stores into it. -/
def blankH5 (ref : H5Ref) : TSH5 :=
  { ref := ref, gid := "", time := [], data := [], nr_dimensions := 0,
    sample_period := 0, sample_period_unit := "", sample_rate := 0,
    start_time := 0, labels_ordering := [], labels_dimensions := [], title := "" }

/-- Lines 145-157, `create_region_ts`: checks the channel count against
`connectivity.number_of_regions` before creating any record or container.
Accessing `number_of_regions` on a non-connectivity raises `AttributeError`;
`data_shape[1]` on a shape with fewer than two axes raises `IndexError`. -/
def create_region_ts (defaults : TSDefaults) (freshGid : String)
    (data_shape : List Nat) (topology : Topology) :
    Except PyErr (TSObject × TSIndex × TSH5) :=
  match topology with
  | .sensors _ => .error (.attributeError "object has no attribute number_of_regions")
  | .connectivity c =>
    match data_shape.get? 1 with
    | none => .error (.indexError "tuple index out of range")
    | some ch =>
      if c.number_of_regions ≠ ch then
        .error (.launchException (region_mismatch_msg ch c.number_of_regions))
      else
        .ok ({ type_name := "TimeSeriesRegion",
               sample_period := defaults.sample_period,
               sample_period_unit := defaults.sample_period_unit,
               start_time := defaults.start_time,
               title := defaults.title,
               labels_ordering := defaults.labels_ordering,
               labels_dimensions := defaults.labels_dimensions },
             blankIndex freshGid (.region c.gid true),
             blankH5 (.connectivity c.gid))

/-- Lines 159-171, `create_eeg_ts`: the EEG analogue of `create_region_ts`
(no surface-mapping flag is set on the EEG index). -/
def create_eeg_ts (defaults : TSDefaults) (freshGid : String)
    (data_shape : List Nat) (topology : Topology) :
    Except PyErr (TSObject × TSIndex × TSH5) :=
  match topology with
  | .connectivity _ => .error (.attributeError "object has no attribute number_of_sensors")
  | .sensors s =>
    match data_shape.get? 1 with
    | none => .error (.indexError "tuple index out of range")
    | some ch =>
      if s.number_of_sensors ≠ ch then
        .error (.launchException (eeg_mismatch_msg ch s.number_of_sensors))
      else
        .ok ({ type_name := "TimeSeriesEEG",
               sample_period := defaults.sample_period,
               sample_period_unit := defaults.sample_period_unit,
               start_time := defaults.start_time,
               title := defaults.title,
               labels_ordering := defaults.labels_ordering,
               labels_dimensions := defaults.labels_dimensions },
             blankIndex freshGid (.eeg s.gid),
             blankH5 (.sensors s.gid))

/-- Which builder a tag selects (the values of the dispatch dict). -/
inductive BuilderKind where
  | region
  | eeg
  deriving Repr, DecidableEq

/-- Line 173: `ts_builder = {TS_REGION: create_region_ts, TS_EEG: create_eeg_ts}`. -/
def ts_builder : List (String × BuilderKind) :=
  [(TS_REGION, .region), (TS_EEG, .eeg)]

/-- Line 187: `self.ts_builder[self.tstype](self, data.shape, tstype_parameters)` —
dict lookup on the configured tag, then the selected builder is called. -/
def call_ts_builder (tstype : String) (defaults : TSDefaults) (freshGid : String)
    (data_shape : List Nat) (tstype_parameters : Topology) :
    Except PyErr (TSObject × TSIndex × TSH5) :=
  match ts_builder.lookup tstype with
  | none => .error (.keyError tstype)
  | some .region => create_region_ts defaults freshGid data_shape tstype_parameters
  | some .eeg => create_eeg_ts defaults freshGid data_shape tstype_parameters

namespace MatTimeSeriesImporter

/-- Line 137: `tstype = TS_REGION`, a class-level constant of
`MatTimeSeriesImporter`. -/
def tstype : String := TS_REGION

end MatTimeSeriesImporter

/-- Lines 176-223, `launch`.  `readResult` is the outcome of the external
`read_nested_mat_file(data_file, dataset_name, structure_path)` call: `.ok`
the extracted 2D array, `.error` a `ParseException` with its message.
`defaults` are the construction-time defaults of the fresh time-series
object and `freshGid` the generated identifier of the new index record.
The `except ParseException` clause (lines 221-223) wraps exactly the reader
failure as a `LaunchException`; every other exception propagates unchanged.
On success the persisted container is returned next to the index record; on
error neither exists. -/
def launch (defaults : TSDefaults) (freshGid : String) (tstype : String)
    (readResult : Except String (List (List ℚ)))
    (transpose : Bool) (slice : Option (List SliceItem))
    (sampling_rate : ℚ) (start_time : ℚ) (tstype_parameters : Topology) :
    Except PyErr (TSIndex × TSH5) :=
  match readResult with
  | .error msg => .error (.launchException msg)
  | .ok fileData =>
    match transformStage fileData transpose slice with
    | .error e => .error e
    | .ok dataS =>
      match call_ts_builder tstype defaults freshGid dataS.shape tstype_parameters with
      | .error e => .error e
      | .ok (ts0, ts_idx, ts_h5) =>
        match dataS with
        | .d1 _ => .error (.indexError "too many indices for array")
        | .d0 _ => .error (.indexError "too many indices for array")
        | .d2 a _ =>
          let ts : TSObject :=
            { ts0 with start_time := start_time, sample_period_unit := "s" }
          let timeAxis := (List.range a.length).map (fun i : Nat => (i : ℚ) * ts.sample_period)
          let stored := canonical4 a
          let data_shape := shape4 stored
          let h5 : TSH5 :=
            { ts_h5 with
              time := timeAxis,
              data := stored,
              nr_dimensions := data_shape.length,
              gid := ts_idx.gid,
              sample_period := ts.sample_period,
              sample_period_unit := ts.sample_period_unit,
              sample_rate := ts.sample_rate,
              start_time := ts.start_time,
              labels_ordering := ts.labels_ordering,
              labels_dimensions := ts.labels_dimensions,
              title := ts.title }
          let idx : TSIndex :=
            { ts_idx with
              title := ts.title,
              time_series_type := ts.type_name,
              sample_period_unit := ts.sample_period_unit,
              sample_period := ts.sample_period,
              sample_rate := ts.sample_rate,
              labels_dimensions := jsonLabelsDict ts.labels_dimensions,
              labels_ordering := jsonStringList ts.labels_ordering,
              data_ndim := data_shape.length,
              data_length_1d := (prepare_array_shape_meta data_shape).1,
              data_length_2d := (prepare_array_shape_meta data_shape).2.1,
              data_length_3d := (prepare_array_shape_meta data_shape).2.2.1,
              data_length_4d := (prepare_array_shape_meta data_shape).2.2.2 }
          .ok (idx, h5)

/-- Modelled from the spec: a concrete instance of the external time-series
class defaults, for concrete evaluations (the fixed axis-name sequence is
that of the canonical layout, the label mapping initially empty). -/
def tvbDefaults : TSDefaults :=
  { sample_period := 1, sample_period_unit := "ms", start_time := 0,
    title := "TimeSeries", labels_ordering := ["Time", "State Variable", "Region", "Mode"],
    labels_dimensions := [] }

/-- A concrete connectivity with two regions used in concrete evaluations. -/
def connW : Connectivity := { number_of_regions := 2, gid := "conn-gid-2" }

/-- A concrete connectivity with three regions used in concrete evaluations. -/
def conn3 : Connectivity := { number_of_regions := 3, gid := "conn-gid-3" }

/-- A concrete connectivity with five regions used in concrete evaluations. -/
def conn5 : Connectivity := { number_of_regions := 5, gid := "conn-gid-5" }

/-- A concrete rectangular array of shape (4, 3). -/
def A43 : List (List ℚ) := [[1,2,3],[4,5,6],[7,8,9],[10,11,12]]

/-- A concrete rectangular array of shape (10, 4). -/
def d104 : List (List ℚ) := List.replicate 10 (List.replicate 4 0)

/-- Every failure of `pyGetIdx` is an `IndexError`. -/
lemma pyGetIdx_error {α : Type} {xs : List α} {i : Int} {e : PyErr}
    (h : pyGetIdx xs i = .error e) : ∃ m, e = .indexError m := by
  unfold pyGetIdx at h
  split at h
  · injection h with h'
    exact ⟨_, h'.symm⟩
  · split at h
    · simp at h
    · injection h with h'
      exact ⟨_, h'.symm⟩

/-- Every failure of a column extraction is an `IndexError`. -/
lemma mapMExcept_pyGetIdx_error {j : Int} {xs : List (List ℚ)} {e : PyErr}
    (h : mapMExcept (fun r => pyGetIdx r j) xs = .error e) : ∃ m, e = .indexError m := by
  induction xs with
  | nil => simp [mapMExcept] at h
  | cons x xs ih =>
    rw [mapMExcept] at h
    split at h
    · rename_i e' heq
      injection h with h'
      subst h'
      exact pyGetIdx_error heq
    · split at h
      · rename_i e' heq
        injection h with h'
        subst h'
        exact ih heq
      · simp at h

/-- Every failure of two-axis slicing is an `IndexError`. -/
lemma applySlicePair_error {data : List (List ℚ)} {s0 s1 : SliceItem} {e : PyErr}
    (h : applySlicePair data s0 s1 = .error e) : ∃ m, e = .indexError m := by
  cases s0 <;> cases s1 <;> rw [applySlicePair] at h
  · split at h
    · rename_i e' heq
      injection h with h'
      subst h'
      exact pyGetIdx_error heq
    · split at h
      · rename_i e' heq
        injection h with h'
        subst h'
        exact pyGetIdx_error heq
      · simp at h
  · split at h
    · rename_i e' heq
      injection h with h'
      subst h'
      exact pyGetIdx_error heq
    · simp at h
  · split at h
    · rename_i e' heq
      injection h with h'
      subst h'
      exact mapMExcept_pyGetIdx_error heq
    · simp at h
  · simp at h

/-- Every failure of multi-axis slicing is an `IndexError`. -/
lemma applySliceList_error {data : List (List ℚ)} {s : List SliceItem} {e : PyErr}
    (h : applySliceList data s = .error e) : ∃ m, e = .indexError m := by
  match s with
  | [] => simp [applySliceList] at h
  | [s0] => exact applySlicePair_error h
  | [s0, s1] => exact applySlicePair_error h
  | s0 :: s1 :: s2 :: rest =>
    have hred : applySliceList data (s0 :: s1 :: s2 :: rest)
        = .error (.indexError "too many indices for array") := rfl
    rw [hred] at h
    injection h with h'
    exact ⟨_, h'.symm⟩

/-- Every failure of the transpose-and-slice stage is an `IndexError`. -/
lemma transformStage_error {data : List (List ℚ)} {transpose : Bool}
    {slice : Option (List SliceItem)} {e : PyErr}
    (h : transformStage data transpose slice = .error e) : ∃ m, e = .indexError m := by
  unfold transformStage at h
  match slice with
  | none => simp at h
  | some s => exact applySliceList_error h

/-- Every failure of `create_region_ts` on a connectivity topology is either
the channel-mismatch `LaunchException` or the below-2D `IndexError`. -/
lemma create_region_ts_error {defaults : TSDefaults} {freshGid : String}
    {shape : List Nat} {c : Connectivity} {e : PyErr}
    (h : create_region_ts defaults freshGid shape (.connectivity c) = .error e) :
    (∃ m, e = .launchException m) ∨ ∃ m, e = .indexError m := by
  simp only [create_region_ts] at h
  split at h
  · right
    injection h with h'
    exact ⟨_, h'.symm⟩
  · split at h
    · left
      injection h with h'
      exact ⟨_, h'.symm⟩
    · simp at h

/-- A successful `create_region_ts` returns a region-typed trait object, an
index record carrying the connectivity gid and the surface-mapping flag, and
a container holding the connectivity reference. -/
lemma create_region_ts_ok {defaults : TSDefaults} {freshGid : String}
    {shape : List Nat} {c : Connectivity} {ts0 : TSObject} {idx0 : TSIndex} {h50 : TSH5}
    (h : create_region_ts defaults freshGid shape (.connectivity c) = .ok (ts0, idx0, h50)) :
    ts0.type_name = "TimeSeriesRegion" ∧ idx0 = blankIndex freshGid (.region c.gid true)
      ∧ h50 = blankH5 (.connectivity c.gid) := by
  simp only [create_region_ts] at h
  split at h
  · simp at h
  · split at h
    · simp at h
    · injection h with h'
      injection h' with ha hbc
      injection hbc with hb hc
      subst ha
      subst hb
      subst hc
      exact ⟨rfl, rfl, rfl⟩

/-- The canonical 4D reshape of a nonempty rectangular 2D array of row length
`C > 0` has persisted shape `[T, 1, C, 1]`. -/
lemma shape4_canonical4 {a : List (List ℚ)} {C : Nat} (ha : 0 < a.length)
    (hrect : ∀ row ∈ a, row.length = C) (hC : 0 < C) :
    shape4 (canonical4 a) = [a.length, 1, C, 1] := by
  obtain ⟨row, rest, rfl⟩ : ∃ row rest, a = row :: rest := by
    cases a with
    | nil => simp at ha
    | cons row rest => exact ⟨row, rest, rfl⟩
  have hrow : row.length = C := hrect row (List.mem_cons_self _ _)
  obtain ⟨x, xs, rfl⟩ : ∃ x xs, row = x :: xs := by
    cases row with
    | nil => rw [← hrow] at hC; simp at hC
    | cons x xs => exact ⟨x, xs, rfl⟩
  simp only [List.length_cons] at hrow
  simp [shape4, canonical4, List.cons.injEq]
  omega

/-- C1: for a 2D input of shape (T, C) whose channel count C equals the
connectivity region count (T, C > 0), `launch` succeeds, the persisted array
is the canonical reshape with shape (T, 1, C, 1), and `data_ndim` together
with the four `data_length` slots of the returned index record are derived
from exactly that persisted shape. -/
theorem C1_roundtrip_shape (defaults : TSDefaults) (freshGid : String)
    (data : List (List ℚ)) (conn : Connectivity) (r st : ℚ)
    (hT : 0 < data.length)
    (hrect : ∀ row ∈ data, row.length = conn.number_of_regions)
    (hC : 0 < conn.number_of_regions) :
    ∃ idx h5,
      launch defaults freshGid TS_REGION (.ok data) false none r st (.connectivity conn)
          = .ok (idx, h5)
      ∧ h5.data = canonical4 data
      ∧ shape4 h5.data = [data.length, 1, conn.number_of_regions, 1]
      ∧ idx.data_ndim = 4
      ∧ idx.data_length_1d = data.length ∧ idx.data_length_2d = 1
      ∧ idx.data_length_3d = conn.number_of_regions ∧ idx.data_length_4d = 1 := by
  have hsh : shape4 (canonical4 data) = [data.length, 1, conn.number_of_regions, 1] :=
    shape4_canonical4 hT hrect hC
  obtain ⟨row, rest, rfl⟩ : ∃ row rest, data = row :: rest := by
    cases data with
    | nil => simp at hT
    | cons row rest => exact ⟨row, rest, rfl⟩
  have hrow : row.length = conn.number_of_regions := hrect row (List.mem_cons_self _ _)
  have htr : transformStage (row :: rest) false none
      = .ok (.d2 (row :: rest) row.length) := rfl
  have hcreate : create_region_ts defaults freshGid
      (SliceResult.d2 (row :: rest) row.length).shape (.connectivity conn)
      = .ok ({ type_name := "TimeSeriesRegion", sample_period := defaults.sample_period,
               sample_period_unit := defaults.sample_period_unit,
               start_time := defaults.start_time, title := defaults.title,
               labels_ordering := defaults.labels_ordering,
               labels_dimensions := defaults.labels_dimensions },
             blankIndex freshGid (.region conn.gid true),
             blankH5 (.connectivity conn.gid)) := by
    simp only [create_region_ts, SliceResult.shape]
    simp only [List.get?_cons_succ, List.get?_cons_zero]
    rw [hrow, if_neg (fun hne => hne rfl)]
  have hcall : call_ts_builder TS_REGION defaults freshGid
      (SliceResult.d2 (row :: rest) row.length).shape (.connectivity conn)
      = .ok ({ type_name := "TimeSeriesRegion", sample_period := defaults.sample_period,
               sample_period_unit := defaults.sample_period_unit,
               start_time := defaults.start_time, title := defaults.title,
               labels_ordering := defaults.labels_ordering,
               labels_dimensions := defaults.labels_dimensions },
             blankIndex freshGid (.region conn.gid true),
             blankH5 (.connectivity conn.gid)) := hcreate
  cases hl : launch defaults freshGid TS_REGION (.ok (row :: rest)) false none r st
      (.connectivity conn) with
  | error e =>
    simp only [launch, htr, hcall] at hl
    simp at hl
  | ok p =>
    obtain ⟨idx, h5⟩ := p
    have hl2 := hl
    simp only [launch, htr, hcall] at hl2
    simp only [Except.ok.injEq, Prod.mk.injEq] at hl2
    obtain ⟨h1, h2⟩ := hl2
    refine ⟨idx, h5, rfl, ?_, ?_, ?_, ?_, ?_, ?_, ?_⟩
    · rw [← h2]
    · rw [← h2]
      exact hsh
    · rw [← h1]
      show (shape4 (canonical4 (row :: rest))).length = 4
      simp [hsh]
    · rw [← h1]
      show (prepare_array_shape_meta (shape4 (canonical4 (row :: rest)))).1 = _
      simp [hsh, prepare_array_shape_meta]
    · rw [← h1]
      show (prepare_array_shape_meta (shape4 (canonical4 (row :: rest)))).2.1 = 1
      simp [hsh, prepare_array_shape_meta]
    · rw [← h1]
      show (prepare_array_shape_meta (shape4 (canonical4 (row :: rest)))).2.2.1 = _
      simp [hsh, prepare_array_shape_meta]
    · rw [← h1]
      show (prepare_array_shape_meta (shape4 (canonical4 (row :: rest)))).2.2.2 = 1
      simp [hsh, prepare_array_shape_meta]

/-- C1 witness: a concrete (2, 2) import against a two-region connectivity. -/
theorem C1_roundtrip_shape_witness :
    0 < ([[(1:ℚ),2],[3,4]] : List (List ℚ)).length
    ∧ (∀ row ∈ ([[(1:ℚ),2],[3,4]] : List (List ℚ)), row.length = connW.number_of_regions)
    ∧ 0 < connW.number_of_regions
    ∧ ∃ idx h5, launch tvbDefaults "g" TS_REGION (.ok [[(1:ℚ),2],[3,4]]) false none 100 0
          (.connectivity connW) = .ok (idx, h5)
        ∧ h5.data = canonical4 [[(1:ℚ),2],[3,4]]
        ∧ shape4 h5.data = [2, 1, 2, 1]
        ∧ idx.data_ndim = 4
        ∧ idx.data_length_1d = 2 ∧ idx.data_length_2d = 1
        ∧ idx.data_length_3d = 2 ∧ idx.data_length_4d = 1 :=
  ⟨by decide, by decide, by decide,
    C1_roundtrip_shape tvbDefaults "g" [[(1:ℚ),2],[3,4]] connW 100 0
      (by decide) (by decide) (by decide)⟩

/-- C2: evidence that the stored `sample_period` is not derived from the
`sampling_rate` argument. `launch` never reads `sampling_rate`, so the stored
period equals the construction default of the time-series class (here the
concrete spec-modelled default `tvbDefaults.sample_period = 1`), which for
`sampling_rate = 100` differs from the specified `1 / 100`; the result is
bit-for-bit identical when the rate is changed to 200.  The period unit is
fixed to seconds as the claim states. -/
theorem C2_sample_period_ignores_sampling_rate :
    (launch tvbDefaults "g" TS_REGION (.ok [[(1:ℚ),2],[3,4]]) false none 100 0
        (.connectivity connW)).map
      (fun res => (res.1.sample_period, res.1.sample_period_unit, res.2.sample_period))
      = .ok (tvbDefaults.sample_period, "s", tvbDefaults.sample_period)
    ∧ tvbDefaults.sample_period ≠ 1 / 100
    ∧ launch tvbDefaults "g" TS_REGION (.ok [[(1:ℚ),2],[3,4]]) false none 100 0
        (.connectivity connW)
      = launch tvbDefaults "g" TS_REGION (.ok [[(1:ℚ),2],[3,4]]) false none 200 0
        (.connectivity connW) :=
  ⟨rfl, by norm_num [tvbDefaults], rfl⟩

/-- C3: when the channel dimension of the transformed array differs from the
connectivity region count, `launch` fails with a `LaunchException` whose
message mentions both the observed and the expected channel counts, and no
index record or storage container is produced (the error is raised by the
builder before any value is written). -/
theorem C3_channel_mismatch_rejection (defaults : TSDefaults) (freshGid : String)
    (data : List (List ℚ)) (transpose : Bool) (slice : Option (List SliceItem))
    (r st : ℚ) (conn : Connectivity) (a : List (List ℚ)) (cols : Nat)
    (htr : transformStage data transpose slice = .ok (.d2 a cols))
    (hne : conn.number_of_regions ≠ cols) :
    launch defaults freshGid TS_REGION (.ok data) transpose slice r st (.connectivity conn)
      = .error (.launchException
          (region_mismatch_msg cols conn.number_of_regions))
    ∧ (∃ p q, region_mismatch_msg cols conn.number_of_regions
        = p ++ toString cols ++ q)
    ∧ (∃ p q, region_mismatch_msg cols conn.number_of_regions
        = p ++ toString conn.number_of_regions ++ q) := by
  refine ⟨?_, ?_, ?_⟩
  · have hcreate : create_region_ts defaults freshGid (SliceResult.d2 a cols).shape
        (.connectivity conn)
        = .error (.launchException
            (region_mismatch_msg cols conn.number_of_regions)) := by
      simp only [create_region_ts, SliceResult.shape, List.get?_cons_succ, List.get?_cons_zero]
      rw [if_pos hne]
    have hcall : call_ts_builder TS_REGION defaults freshGid (SliceResult.d2 a cols).shape
        (.connectivity conn)
        = .error (.launchException
            (region_mismatch_msg cols conn.number_of_regions)) := hcreate
    simp only [launch, htr, hcall]
  · exact ⟨"Data has ",
      " channels but the connectivity has " ++ toString conn.number_of_regions ++ " nodes",
      by simp [region_mismatch_msg, String.append_assoc]⟩
  · exact ⟨"Data has " ++ toString cols ++ " channels but the connectivity has ",
      " nodes", by simp [region_mismatch_msg, String.append_assoc]⟩

/-- C3 witness: a (10, 4) input against a five-region connectivity fails with
the message naming 4 and 5. -/
theorem C3_channel_mismatch_rejection_witness :
    transformStage d104 false none = .ok (.d2 d104 4)
    ∧ conn5.number_of_regions ≠ 4
    ∧ launch tvbDefaults "g" TS_REGION (.ok d104) false none 100 0 (.connectivity conn5)
        = .error (.launchException
            (region_mismatch_msg 4 conn5.number_of_regions))
    ∧ region_mismatch_msg 4 conn5.number_of_regions
        = "Data has 4 channels but the connectivity has 5 nodes" :=
  ⟨rfl, by decide,
    (C3_channel_mismatch_rejection tvbDefaults "g" d104 false none 100 0 conn5 d104 4
      rfl (by decide)).1,
    rfl⟩

/-- C4 counterexample: a slice expression that reduces the array below 2D
(here the single index `0` on a (4, 3) array) makes `launch` fail with an
`IndexError` that is not a `LaunchException`, so a non-`LaunchError` exception
does escape the orchestrator; moreover a slice that yields zero elements
along the time axis is not rejected at all — `0:0,:` on the (4, 3) array
gives shape (0, 3), which passes the channel check against the three-region
connectivity and the import succeeds. -/
theorem C4_counterexample_indexerror_escapes :
    launch tvbDefaults "g" TS_REGION (.ok A43) false (some [SliceItem.idx 0]) 100 0
        (.connectivity conn3)
      = .error (.indexError "tuple index out of range")
    ∧ (∀ m, PyErr.indexError "tuple index out of range" ≠ .launchException m)
    ∧ ∃ res, launch tvbDefaults "g" TS_REGION (.ok A43) false
        (some [SliceItem.interval (some 0) (some 0), SliceItem.interval none none]) 100 0
        (.connectivity conn3) = .ok res :=
  ⟨rfl, fun _ h => PyErr.noConfusion h, ⟨_, rfl⟩⟩

/-- C4 amended: for the region importer with a connectivity topology, every
failure of `launch` escapes either as a `LaunchException` (wrapped parse
failures and channel mismatches) or as an uncaught `IndexError` (slices that
leave fewer than two axes); zero-element arrays are not rejected. -/
theorem C4_error_taxonomy (defaults : TSDefaults) (freshGid : String)
    (readResult : Except String (List (List ℚ))) (transpose : Bool)
    (slice : Option (List SliceItem)) (r st : ℚ) (c : Connectivity) (e : PyErr)
    (h : launch defaults freshGid TS_REGION readResult transpose slice r st
      (.connectivity c) = .error e) :
    (∃ m, e = .launchException m) ∨ ∃ m, e = .indexError m := by
  cases readResult with
  | error m =>
    simp only [launch] at h
    injection h with h'
    exact .inl ⟨_, h'.symm⟩
  | ok d =>
    cases htr : transformStage d transpose slice with
    | error e' =>
      simp only [launch, htr] at h
      injection h with h'
      subst h'
      exact .inr (transformStage_error htr)
    | ok dataS =>
      simp only [launch, htr] at h
      cases hb : call_ts_builder TS_REGION defaults freshGid dataS.shape (.connectivity c) with
      | error e' =>
        simp only [hb] at h
        injection h with h'
        subst h'
        exact create_region_ts_error hb
      | ok tih =>
        obtain ⟨ts0, idx0, h50⟩ := tih
        simp only [hb] at h
        cases dataS with
        | d1 v =>
          injection h with h'
          exact .inr ⟨_, h'.symm⟩
        | d0 x =>
          injection h with h'
          exact .inr ⟨_, h'.symm⟩
        | d2 a cols => simp at h

/-- C4 witness: a concrete reader failure surfaces as one of the two
exception kinds (a `LaunchException`). -/
theorem C4_error_taxonomy_witness :
    launch tvbDefaults "g" TS_REGION (.error "Dataset not found") false none 100 0
        (.connectivity connW) = .error (.launchException "Dataset not found")
    ∧ ((∃ m, PyErr.launchException "Dataset not found" = .launchException m)
        ∨ ∃ m, PyErr.launchException "Dataset not found" = .indexError m) :=
  ⟨rfl, C4_error_taxonomy tvbDefaults "g" (.error "Dataset not found") false none 100 0
      connW _ rfl⟩

/-- C5: importing `A` with `transpose = true` produces exactly the same
result as importing the transposed array with `transpose = false`, all other
inputs equal. -/
theorem C5_transpose_equivalence (defaults : TSDefaults) (freshGid tstype : String)
    (A : List (List ℚ)) (slice : Option (List SliceItem)) (r st : ℚ)
    (topo : Topology) :
    launch defaults freshGid tstype (.ok A) true slice r st topo
      = launch defaults freshGid tstype (.ok (transposeM A)) false slice r st topo := rfl

/-- C6: slicing is applied after the transpose step — a transposed launch
with a slice equals a non-transposed launch of the pre-transposed array with
the same slice — and concretely a (4, 3) input with `transpose = false` and
slice `1:3,:` yields canonical time dimension length 2. -/
theorem C6_slice_after_transpose :
    (∀ (defaults : TSDefaults) (freshGid tstype : String) (A : List (List ℚ))
        (s : List SliceItem) (r st : ℚ) (topo : Topology) (t : Bool),
      launch defaults freshGid tstype (.ok A) t (some s) r st topo
        = launch defaults freshGid tstype (.ok (if t then transposeM A else A)) false
            (some s) r st topo)
    ∧ (launch tvbDefaults "g" TS_REGION (.ok A43) false
          (some [SliceItem.interval (some 1) (some 3), SliceItem.interval none none]) 100 0
          (.connectivity conn3)).map
        (fun res => (res.1.data_length_1d, res.2.data.length, res.2.time.length))
        = .ok (2, 2, 2) :=
  ⟨fun _ _ _ _ _ _ _ _ _ => rfl, rfl⟩

/-- C7: on every successful launch, the persisted time axis is
`i * sample_period` for `i` below the time-sample count, with length exactly
the first axis of the persisted data. -/
theorem C7_time_axis_derivation (defaults : TSDefaults) (freshGid tstype : String)
    (readResult : Except String (List (List ℚ))) (transpose : Bool)
    (slice : Option (List SliceItem)) (r st : ℚ) (topo : Topology)
    (idx : TSIndex) (h5 : TSH5)
    (h : launch defaults freshGid tstype readResult transpose slice r st topo
      = .ok (idx, h5)) :
    h5.time = (List.range h5.data.length).map (fun i : Nat => (i : ℚ) * h5.sample_period)
      ∧ h5.time.length = h5.data.length := by
  cases readResult with
  | error m => simp [launch] at h
  | ok d =>
    cases htr : transformStage d transpose slice with
    | error e' => simp only [launch, htr] at h; simp at h
    | ok dataS =>
      simp only [launch, htr] at h
      cases hb : call_ts_builder tstype defaults freshGid dataS.shape topo with
      | error e' => simp only [hb] at h; simp at h
      | ok tih =>
        obtain ⟨ts0, idx0, h50⟩ := tih
        simp only [hb] at h
        cases dataS with
        | d1 v => simp at h
        | d0 x => simp at h
        | d2 a cols =>
          simp only [Except.ok.injEq, Prod.mk.injEq] at h
          obtain ⟨h1, h2⟩ := h
          subst h1
          subst h2
          simp [canonical4]

/-- C7 witness: the concrete (2, 2) import stores the time axis `[0, 1]` of
length 2. -/
theorem C7_time_axis_derivation_witness :
    ∃ idx h5, launch tvbDefaults "g" TS_REGION (.ok [[(1:ℚ),2],[3,4]]) false none 100 0
        (.connectivity connW) = .ok (idx, h5)
      ∧ h5.time = (List.range h5.data.length).map (fun i : Nat => (i : ℚ) * h5.sample_period)
      ∧ h5.time.length = h5.data.length := by
  refine ⟨_, _, rfl, ?_, ?_⟩
  · exact (C7_time_axis_derivation tvbDefaults "g" TS_REGION (.ok [[(1:ℚ),2],[3,4]]) false
      none 100 0 (.connectivity connW) _ _ rfl).1
  · exact (C7_time_axis_derivation tvbDefaults "g" TS_REGION (.ok [[(1:ℚ),2],[3,4]]) false
      none 100 0 (.connectivity connW) _ _ rfl).2

/-- C8: a reader failure (`ParseException`) is caught at the orchestrator
boundary and re-raised as a `LaunchException` wrapping the original message;
nothing is written and no other outcome is possible. -/
theorem C8_parse_failure_isolation (defaults : TSDefaults) (freshGid tstype msg : String)
    (transpose : Bool) (slice : Option (List SliceItem)) (r st : ℚ) (topo : Topology) :
    launch defaults freshGid tstype (.error msg) transpose slice r st topo
      = .error (.launchException msg) := rfl

/-- C9: two launches differing only in the `sampling_rate` argument return
identical index records and identical persisted containers — the body of
`launch` never reads that parameter. -/
theorem C9_sampling_rate_independence (defaults : TSDefaults) (freshGid tstype : String)
    (readResult : Except String (List (List ℚ))) (transpose : Bool)
    (slice : Option (List SliceItem)) (r1 r2 st : ℚ) (topo : Topology) :
    launch defaults freshGid tstype readResult transpose slice r1 st topo
      = launch defaults freshGid tstype readResult transpose slice r2 st topo := rfl

/-- C10: the class-level tag of `MatTimeSeriesImporter` selects the region
builder in the `ts_builder` dispatch dict, and every successful launch of
this importer on a connectivity returns an index record whose variant carries
the connectivity gid with the surface-mapping flag set, typed
`TimeSeriesRegion`, with the container referencing the same connectivity —
the EEG branch is never taken. -/
theorem C10_region_dispatch :
    ts_builder.lookup MatTimeSeriesImporter.tstype = some BuilderKind.region
    ∧ ∀ (defaults : TSDefaults) (freshGid : String)
        (readResult : Except String (List (List ℚ))) (transpose : Bool)
        (slice : Option (List SliceItem)) (r st : ℚ) (c : Connectivity)
        (idx : TSIndex) (h5 : TSH5),
        launch defaults freshGid MatTimeSeriesImporter.tstype readResult transpose slice r st
            (.connectivity c) = .ok (idx, h5)
        → idx.variant = .region c.gid true ∧ idx.time_series_type = "TimeSeriesRegion"
            ∧ h5.ref = .connectivity c.gid := by
  refine ⟨rfl, ?_⟩
  intro defaults freshGid readResult transpose slice r st c idx h5 h
  cases readResult with
  | error m => simp [launch] at h
  | ok d =>
    cases htr : transformStage d transpose slice with
    | error e' => simp only [launch, htr] at h; simp at h
    | ok dataS =>
      simp only [launch, htr] at h
      cases hb : call_ts_builder MatTimeSeriesImporter.tstype defaults freshGid dataS.shape
          (.connectivity c) with
      | error e' => simp only [hb] at h; simp at h
      | ok tih =>
        obtain ⟨ts0, idx0, h50⟩ := tih
        obtain ⟨hty, rfl, rfl⟩ := create_region_ts_ok hb
        simp only [hb] at h
        cases dataS with
        | d1 v => simp at h
        | d0 x => simp at h
        | d2 a cols =>
          simp only [Except.ok.injEq, Prod.mk.injEq] at h
          obtain ⟨h1, h2⟩ := h
          subst h1
          subst h2
          refine ⟨?_, ?_, ?_⟩ <;> simp [blankIndex, blankH5, hty]

/-- C10 witness: a concrete successful import returns the region-variant
index for the supplied connectivity. -/
theorem C10_region_dispatch_witness :
    ∃ idx h5, launch tvbDefaults "g" MatTimeSeriesImporter.tstype (.ok [[(1:ℚ),2],[3,4]])
        false none 100 0 (.connectivity connW) = .ok (idx, h5)
      ∧ idx.variant = .region connW.gid true ∧ idx.time_series_type = "TimeSeriesRegion"
        ∧ h5.ref = .connectivity connW.gid := by
  refine ⟨_, _, rfl, ?_⟩
  exact C10_region_dispatch.2 tvbDefaults "g" (.ok [[(1:ℚ),2],[3,4]]) false none 100 0
    connW _ _ rfl
